import Mathlib

/-!
Shallow embedding of the ML prediction core of `ml_rust/src/lib.rs`
(ffmpeg-rtmp repository).

Modelling conventions:
* Rust `f32`/`f64` values are modelled as exact rationals (`ℚ`).  All the
  arithmetic the embedded functions perform is `+`, `-`, `*`, `/`, `max`,
  `min` and comparisons, which the code performs on finite values; we prove
  the algebraic/structural claims in exact arithmetic.  The one place the
  code can produce a NaN — averaging over an empty ensemble, `0.0 / 0.0` —
  is mapped by Rust's NaN-ignoring `f64::max`/`f64::min` clamp to `0.0`,
  which coincides with Lean's `0 / 0 = 0` convention for `ℚ`, so the
  observable result agrees.
* Rust `u32` values are modelled as `ℕ`; where the code multiplies two
  `u32`s the product is reduced `% 2^32` (release-mode wrapping
  semantics), and the `as u32` cast of a float is modelled as the
  saturating truncation Rust specifies (negative → 0, above `u32::MAX` →
  `u32::MAX`, otherwise truncate toward zero).
* The filesystem used by `save_model` / `load_model` is modelled as a map
  from paths to file contents; a stored file is either readable JSON data
  or unreadable (an I/O failure on read).  `serde_json` serialization of
  the concrete `ModelBundle` type is embedded as explicit encoders and
  field-by-field decoders over a JSON value type.
-/

namespace FfmpegML

/-- Input features for ML prediction (`PredictionFeatures`, lib.rs:20-27). -/
structure PredictionFeatures where
  bitrate_kbps : ℚ
  resolution_width : ℕ
  resolution_height : ℕ
  frame_rate : ℚ
  frame_drop : ℚ
  motion_intensity : ℚ
deriving DecidableEq

/-- Prediction results from ML models (`PredictionResult`, lib.rs:32-39). -/
structure PredictionResult where
  predicted_vmaf : ℚ
  predicted_psnr : ℚ
  predicted_cost_usd : ℚ
  predicted_co2_kg : ℚ
  confidence : ℚ
  recommended_bitrate_kbps : ℕ
deriving DecidableEq

/-- Simple decision tree for ensemble models (`DecisionTree`, lib.rs:60-63). -/
structure DecisionTree where
  intercept : ℚ
  weights : List ℚ
deriving DecidableEq

/-- Simplified Random Forest (`SimpleRandomForest`, lib.rs:53-56). -/
structure SimpleRandomForest where
  trees : List DecisionTree
  n_trees : ℕ
deriving DecidableEq

/-- Simplified Gradient Boosting (`SimpleGradientBoosting`, lib.rs:67-71). -/
structure SimpleGradientBoosting where
  base_prediction : ℚ
  trees : List DecisionTree
  learning_rate : ℚ
deriving DecidableEq

/-- Bundle containing all ML models (`ModelBundle`, lib.rs:43-49). -/
structure ModelBundle where
  version : String
  vmaf_model : SimpleRandomForest
  psnr_model : SimpleRandomForest
  cost_model : SimpleGradientBoosting
  co2_model : SimpleGradientBoosting
deriving DecidableEq

/-- The six positionally aligned feature values built inside both `predict`
functions (lib.rs:124-131 and lib.rs:212-219). -/
def featureVec (f : PredictionFeatures) : List ℚ :=
  [f.bitrate_kbps, (f.resolution_width : ℚ), (f.resolution_height : ℚ),
   f.frame_rate, f.frame_drop, f.motion_intensity]

/-- One tree's output: `pred = intercept; for (w, f) in weights.zip(features)
{ pred += w * f }` (lib.rs:133-136 and lib.rs:222-225). -/
def DecisionTree.eval (t : DecisionTree) (f : PredictionFeatures) : ℚ :=
  t.intercept + (List.zipWith (fun w x => w * x) t.weights (featureVec f)).sum

/-- `SimpleRandomForest::new` (lib.rs:74-79): `n` zero trees. -/
def SimpleRandomForest.new (n : ℕ) : SimpleRandomForest :=
  { trees := List.replicate n { intercept := 0, weights := List.replicate 6 0 },
    n_trees := n }

/-- The slope computed by `SimpleRandomForest::train` (lib.rs:86-103): mean
of `bitrate_kbps` and of `targets` (both divided by `features.len()`), then
covariance and variance accumulated over `features.iter().zip(targets)` —
the zip truncates to the shorter slice when lengths mismatch. -/
def rfSlope (features : List PredictionFeatures) (targets : List ℚ) : ℚ :=
  let n : ℚ := (features.length : ℚ)
  let mean_bitrate : ℚ := (features.map (fun f => f.bitrate_kbps)).sum / n
  let mean_target : ℚ := targets.sum / n
  let cov : ℚ := ((features.zip targets).map
    (fun p => (p.1.bitrate_kbps - mean_bitrate) * (p.2 - mean_target))).sum
  let var : ℚ := ((features.zip targets).map
    (fun p => (p.1.bitrate_kbps - mean_bitrate) *
              (p.1.bitrate_kbps - mean_bitrate))).sum
  if var > 0 then cov / var else 0

/-- The intercept computed by `SimpleRandomForest::train` (lib.rs:104):
`mean_target - slope * mean_bitrate`. -/
def rfIntercept (features : List PredictionFeatures) (targets : List ℚ) : ℚ :=
  targets.sum / (features.length : ℚ) -
    rfSlope features targets *
      ((features.map (fun f => f.bitrate_kbps)).sum / (features.length : ℚ))

/-- `SimpleRandomForest::train` (lib.rs:81-119).  The early return fires when
either slice is empty; every tree is overwritten with the shared fitted
trend perturbed by the per-tree variation factor computed from
`self.n_trees`. -/
def SimpleRandomForest.train (rf : SimpleRandomForest)
    (features : List PredictionFeatures) (targets : List ℚ) :
    SimpleRandomForest :=
  if features = [] ∨ targets = [] then rf
  else
    let slope : ℚ := rfSlope features targets
    let intercept : ℚ := rfIntercept features targets
    { rf with trees := (List.range rf.trees.length).map (fun (i : ℕ) =>
        let variation : ℚ := 1 + ((i : ℚ) - (rf.n_trees : ℚ) / 2) * 0.02
        { intercept := intercept * variation,
          weights := [slope * variation, 0, 0, 0, -5 * variation, 0] }) }

/-- `SimpleRandomForest::predict` (lib.rs:121-140): average over all trees,
then `.max(0.0).min(100.0)`.  For an empty forest the Rust code computes
`0.0 / 0.0 = NaN` and the NaN-ignoring clamp yields `0.0`; the embedding's
`0 / 0 = 0` convention for `ℚ` produces the same value. -/
def SimpleRandomForest.predict (rf : SimpleRandomForest)
    (f : PredictionFeatures) : ℚ :=
  min (max ((rf.trees.map (fun t => t.eval f)).sum / (rf.trees.length : ℚ)) 0) 100

/-- `SimpleGradientBoosting::new` (lib.rs:167-173). -/
def SimpleGradientBoosting.new (learning_rate : ℚ) : SimpleGradientBoosting :=
  { base_prediction := 0, trees := [], learning_rate := learning_rate }

/-- The base prediction set by `SimpleGradientBoosting::train` (lib.rs:181):
the mean of `targets` over `targets.len()`. -/
def gbBase (targets : List ℚ) : ℚ :=
  targets.sum / (targets.length : ℚ)

/-- The slope computed by `SimpleGradientBoosting::train` (lib.rs:183-196):
residuals are taken against the freshly set base prediction, and the
covariance/variance loop runs over `features.iter().zip(targets)`. -/
def gbSlope (features : List PredictionFeatures) (targets : List ℚ) : ℚ :=
  let base : ℚ := gbBase targets
  let n : ℚ := (features.length : ℚ)
  let mean_bitrate : ℚ := (features.map (fun f => f.bitrate_kbps)).sum / n
  let cov : ℚ := ((features.zip targets).map
    (fun p => (p.1.bitrate_kbps - mean_bitrate) * (p.2 - base))).sum
  let var : ℚ := ((features.zip targets).map
    (fun p => (p.1.bitrate_kbps - mean_bitrate) *
              (p.1.bitrate_kbps - mean_bitrate))).sum
  if var > 0 then cov / var else 0

/-- `SimpleGradientBoosting::train` (lib.rs:175-207).  The five correction
trees are pushed onto the existing `self.trees`. -/
def SimpleGradientBoosting.train (gb : SimpleGradientBoosting)
    (features : List PredictionFeatures) (targets : List ℚ) :
    SimpleGradientBoosting :=
  if features = [] ∨ targets = [] then gb
  else
    let slope : ℚ := gbSlope features targets
    { gb with
      base_prediction := gbBase targets,
      trees := gb.trees ++ (List.range 5).map (fun (i : ℕ) =>
        { intercept := 0,
          weights := [slope * (gb.learning_rate * (1 - (i : ℚ) * 0.1)),
                      0, 0, 0, 0, 0] }) }

/-- `SimpleGradientBoosting::predict` (lib.rs:209-230): start from the base,
add `learning_rate * tree_pred` per tree, then `.max(0.0)`. -/
def SimpleGradientBoosting.predict (gb : SimpleGradientBoosting)
    (f : PredictionFeatures) : ℚ :=
  max (gb.base_prediction +
    (gb.trees.map (fun t => gb.learning_rate * t.eval f)).sum) 0

/-- `ModelBundle::new` (lib.rs:235-243). -/
def ModelBundle.new : ModelBundle :=
  { version := "1.0.0",
    vmaf_model := SimpleRandomForest.new 10,
    psnr_model := SimpleRandomForest.new 10,
    cost_model := SimpleGradientBoosting.new 0.1,
    co2_model := SimpleGradientBoosting.new 0.1 }

/-- The fixed synthetic dataset of `create_default_model` (lib.rs:269-294). -/
def synthetic_features : List PredictionFeatures :=
  [{ bitrate_kbps := 1000, resolution_width := 1280, resolution_height := 720,
     frame_rate := 30, frame_drop := 0.01, motion_intensity := 0.5 },
   { bitrate_kbps := 2500, resolution_width := 1920, resolution_height := 1080,
     frame_rate := 30, frame_drop := 0.005, motion_intensity := 0.6 },
   { bitrate_kbps := 5000, resolution_width := 3840, resolution_height := 2160,
     frame_rate := 60, frame_drop := 0.002, motion_intensity := 0.7 }]

/-- `create_default_model` (lib.rs:265-307): train all four models of a fresh
bundle on the fixed 3-sample synthetic dataset. -/
def create_default_model : ModelBundle :=
  let m := ModelBundle.new
  { m with
    vmaf_model := m.vmaf_model.train synthetic_features [75, 85, 92],
    psnr_model := m.psnr_model.train synthetic_features [35, 38, 42],
    cost_model := m.cost_model.train synthetic_features [0.05, 0.12, 0.30],
    co2_model := m.co2_model.train synthetic_features [0.01, 0.025, 0.06] }

/-- `calculate_confidence` (lib.rs:333-350). -/
def calculate_confidence (features : PredictionFeatures)
    (predicted_vmaf : ℚ) : ℚ :=
  let c0 : ℚ := 0.8
  let c1 : ℚ :=
    if features.frame_drop < 0.01 then c0 + 0.1
    else if features.frame_drop > 0.05 then c0 - 0.2
    else c0
  let c2 : ℚ :=
    if predicted_vmaf > 80 then c1 + 0.05
    else if predicted_vmaf < 60 then c1 - 0.1
    else c1
  min (max c2 0) 1

/-- Rust's saturating `as u32` cast of a finite float: truncate toward zero,
clamping to `[0, 2^32 - 1]`.  (`Int.toNat` maps negative floors to 0.) -/
def toU32 (q : ℚ) : ℕ :=
  min (Int.toNat ⌊q⌋) (2 ^ 32 - 1)

/-- `recommend_bitrate` (lib.rs:353-366).  `pixels = width * height` is a
`u32` product, hence reduced modulo `2^32` (release-mode wrapping); the
`_cost` argument is accepted but unused. -/
def recommend_bitrate (features : PredictionFeatures) (predicted_vmaf : ℚ)
    (cost : ℚ) : ℕ :=
  let pixels : ℕ := (features.resolution_width * features.resolution_height) % 2 ^ 32
  let base_bitrate : ℕ := toU32 ((pixels : ℚ) * features.frame_rate * 0.07)
  if predicted_vmaf < 70 then toU32 ((base_bitrate : ℚ) * 1.3)
  else if predicted_vmaf > 90 then toU32 ((base_bitrate : ℚ) * 0.9)
  else base_bitrate

/-- `predict` (lib.rs:310-330): the prediction pipeline over a bundle. -/
def predict (features : PredictionFeatures) (model : ModelBundle) :
    PredictionResult :=
  let predicted_vmaf := model.vmaf_model.predict features
  let predicted_psnr := model.psnr_model.predict features
  let predicted_cost_usd := model.cost_model.predict features
  let predicted_co2_kg := model.co2_model.predict features
  { predicted_vmaf := predicted_vmaf,
    predicted_psnr := predicted_psnr,
    predicted_cost_usd := predicted_cost_usd,
    predicted_co2_kg := predicted_co2_kg,
    confidence := calculate_confidence features predicted_vmaf,
    recommended_bitrate_kbps :=
      recommend_bitrate features predicted_vmaf predicted_cost_usd }

/-- `retrain` (lib.rs:369-373): ignores all supplied data and returns a
fresh default model. -/
def retrain (features : List PredictionFeatures) (targets_vmaf : List ℚ)
    (targets_psnr : List ℚ) (targets_cost : List ℚ) (targets_co2 : List ℚ) :
    ModelBundle :=
  create_default_model

/-! ### Persistence (lib.rs:247-262 and lib.rs:376-390)

`save_model` serializes the bundle with `serde_json` and writes it to
`path`; `load_model` returns the default bundle when the path does not
exist, an error string prefixed `"Failed to read model file"` when the file
cannot be read, and an error string prefixed `"Failed to parse model"` when
its contents do not decode to a `ModelBundle`.  The serde-derived JSON
format for the concrete types is embedded as explicit encoders and
field-by-field decoders; the filesystem is a map from paths to contents,
where a stored file is either readable JSON data or unreadable. -/

/-- A JSON value (numbers carried exactly, as the embedding carries all
numeric state). -/
inductive Json where
  | num (q : ℚ)
  | str (s : String)
  | arr (xs : List Json)
  | obj (fields : List (String × Json))

/-- Object field lookup, as a serde deserializer resolves named fields. -/
def getField (fields : List (String × Json)) (k : String) : Option Json :=
  (fields.find? (fun p => p.1 = k)).map (fun p => p.2)

/-- Decode a JSON number. -/
def decodeNum : Json → Option ℚ
  | .num q => some q
  | _ => none

/-- Decode a JSON string. -/
def decodeStr : Json → Option String
  | .str s => some s
  | _ => none

/-- Decode a non-negative integer (Rust `usize`): the number must be a
non-negative whole number. -/
def decodeNat (j : Json) : Option ℕ :=
  match j with
  | .num q => if q.den = 1 ∧ 0 ≤ q.num then some q.num.toNat else none
  | _ => none

/-- Decode every element of a JSON sequence, failing if any element fails
(as a serde sequence visitor does). -/
def decodeList {α : Type} (dec : Json → Option α) : List Json → Option (List α)
  | [] => some []
  | x :: xs => do
      let a ← dec x
      let as ← decodeList dec xs
      pure (a :: as)

/-- Decode a JSON array of numbers. -/
def decodeNumList : Json → Option (List ℚ)
  | .arr xs => decodeList decodeNum xs
  | _ => none

/-- Serde encoding of `DecisionTree`. -/
def encodeTree (t : DecisionTree) : Json :=
  .obj [("intercept", .num t.intercept),
        ("weights", .arr (t.weights.map Json.num))]

/-- Serde decoding of `DecisionTree`; fails unless both fields are present
with the right shapes. -/
def decodeTree (j : Json) : Option DecisionTree :=
  match j with
  | .obj fields => do
      let i ← getField fields "intercept" >>= decodeNum
      let w ← getField fields "weights" >>= decodeNumList
      pure { intercept := i, weights := w }
  | _ => none

/-- Decode a JSON array of trees. -/
def decodeTreeList : Json → Option (List DecisionTree)
  | .arr xs => decodeList decodeTree xs
  | _ => none

/-- Serde encoding of `SimpleRandomForest`. -/
def encodeForest (rf : SimpleRandomForest) : Json :=
  .obj [("trees", .arr (rf.trees.map encodeTree)),
        ("n_trees", .num (rf.n_trees : ℚ))]

/-- Serde decoding of `SimpleRandomForest`. -/
def decodeForest (j : Json) : Option SimpleRandomForest :=
  match j with
  | .obj fields => do
      let ts ← getField fields "trees" >>= decodeTreeList
      let n ← getField fields "n_trees" >>= decodeNat
      pure { trees := ts, n_trees := n }
  | _ => none

/-- Serde encoding of `SimpleGradientBoosting`. -/
def encodeBoosting (gb : SimpleGradientBoosting) : Json :=
  .obj [("base_prediction", .num gb.base_prediction),
        ("trees", .arr (gb.trees.map encodeTree)),
        ("learning_rate", .num gb.learning_rate)]

/-- Serde decoding of `SimpleGradientBoosting`. -/
def decodeBoosting (j : Json) : Option SimpleGradientBoosting :=
  match j with
  | .obj fields => do
      let b ← getField fields "base_prediction" >>= decodeNum
      let ts ← getField fields "trees" >>= decodeTreeList
      let lr ← getField fields "learning_rate" >>= decodeNum
      pure { base_prediction := b, trees := ts, learning_rate := lr }
  | _ => none

/-- Serde encoding of `ModelBundle` (the document `save_model` writes). -/
def encodeBundle (m : ModelBundle) : Json :=
  .obj [("version", .str m.version),
        ("vmaf_model", encodeForest m.vmaf_model),
        ("psnr_model", encodeForest m.psnr_model),
        ("cost_model", encodeBoosting m.cost_model),
        ("co2_model", encodeBoosting m.co2_model)]

/-- Serde decoding of `ModelBundle` (what `serde_json::from_str` must
produce for `load_model` to succeed). -/
def decodeBundle (j : Json) : Option ModelBundle :=
  match j with
  | .obj fields => do
      let v ← getField fields "version" >>= decodeStr
      let vm ← getField fields "vmaf_model" >>= decodeForest
      let pm ← getField fields "psnr_model" >>= decodeForest
      let cm ← getField fields "cost_model" >>= decodeBoosting
      let co ← getField fields "co2_model" >>= decodeBoosting
      pure { version := v, vmaf_model := vm, psnr_model := pm,
             cost_model := cm, co2_model := co }
  | _ => none

/-- A typical 1080p feature record (as in the crate's tests). -/
def exampleFeatures : PredictionFeatures :=
  { bitrate_kbps := 2500, resolution_width := 1920, resolution_height := 1080,
    frame_rate := 30, frame_drop := 0.01, motion_intensity := 0.5 }

/-- A degenerate but valid feature record: a 1x1 video at 1 fps. -/
def tinyFeatures : PredictionFeatures :=
  { bitrate_kbps := 1000, resolution_width := 1, resolution_height := 1,
    frame_rate := 1, frame_drop := 0.01, motion_intensity := 0.5 }

/-- A feature record whose pixel count 65536 * 65536 = 2^32 overflows the
`u32` product in `recommend_bitrate`. -/
def overflowFeatures : PredictionFeatures :=
  { bitrate_kbps := 1000, resolution_width := 65536, resolution_height := 65536,
    frame_rate := 1, frame_drop := 0.01, motion_intensity := 0.5 }

/-- A feature record with bitrate 1 (used to exercise training). -/
def featA : PredictionFeatures :=
  { bitrate_kbps := 1, resolution_width := 1, resolution_height := 1,
    frame_rate := 1, frame_drop := 0, motion_intensity := 0 }

/-- A feature record with bitrate 3 (used to exercise training). -/
def featB : PredictionFeatures :=
  { bitrate_kbps := 3, resolution_width := 1, resolution_height := 1,
    frame_rate := 1, frame_drop := 0, motion_intensity := 0 }

/-- A boosting model with no correction trees and a negative base value
(every field of `SimpleGradientBoosting` is public, and a negative target
mean also produces a negative base). -/
def negBoosting : SimpleGradientBoosting :=
  { base_prediction := -1, trees := [], learning_rate := 0.1 }

/-- Stated from the spec claim for comparison with `rfSlope`: the
ordinary-least-squares slope of `target` against the single feature
`bitrate_kbps`, taken as 0 when the bitrate variance is zero. -/
def olsSlope (features : List PredictionFeatures) (targets : List ℚ) : ℚ :=
  let xs : List ℚ := features.map (fun f => f.bitrate_kbps)
  let mx : ℚ := xs.sum / (xs.length : ℚ)
  let my : ℚ := targets.sum / (targets.length : ℚ)
  let sxy : ℚ := ((xs.zip targets).map (fun p => (p.1 - mx) * (p.2 - my))).sum
  let sxx : ℚ := (xs.map (fun x => (x - mx) * (x - mx))).sum
  if sxx = 0 then 0 else sxy / sxx

/-- Stated from the spec claim for comparison with `rfIntercept`: the
ordinary-least-squares intercept, `mean target − slope * mean bitrate`. -/
def olsIntercept (features : List PredictionFeatures) (targets : List ℚ) : ℚ :=
  targets.sum / (targets.length : ℚ) -
    olsSlope features targets *
      ((features.map (fun f => f.bitrate_kbps)).sum / (features.length : ℚ))

/-- The per-unit variation factor of the spec claim:
`v_i = 1 + (i − N/2) * 0.02`. -/
def variationFactor (N i : ℕ) : ℚ :=
  1 + ((i : ℚ) - (N : ℚ) / 2) * 0.02

/-- Contents of a stored file: readable JSON data, or data whose read fails
(the `fs::read_to_string` error branch of lib.rs:255-256). -/
inductive FileContent where
  | readable (j : Json)
  | unreadable

/-- A filesystem: a map from paths to optional file contents. -/
def FileSystem : Type := String → Option FileContent

/-- `save_model` (lib.rs:376-390) on a writable location: serialize the
bundle and write it at `path` (directory creation and write errors are the
unmodelled I/O failure branches; on a writable location both succeed). -/
def save_model (model : ModelBundle) (path : String) (fs : FileSystem) :
    FileSystem :=
  fun p => if p = path then some (.readable (encodeBundle model)) else fs p

/-- `load_model` (lib.rs:247-262): default bundle when the path does not
exist; a read error when the contents cannot be read; a parse error when
they do not decode to a `ModelBundle`. -/
def load_model (path : String) (fs : FileSystem) :
    Except String ModelBundle :=
  match fs path with
  | none => .ok create_default_model
  | some .unreadable => .error "Failed to read model file: read failed"
  | some (.readable j) =>
      match decodeBundle j with
      | none => .error "Failed to parse model: malformed document"
      | some m => .ok m

end FfmpegML

namespace FfmpegML

lemma train_rf_empty (rf : SimpleRandomForest) (fs : List PredictionFeatures)
    (ts : List ℚ) (h : fs = [] ∨ ts = []) : rf.train fs ts = rf := by
  rw [SimpleRandomForest.train, if_pos h]

lemma train_gb_empty (gb : SimpleGradientBoosting) (fs : List PredictionFeatures)
    (ts : List ℚ) (h : fs = [] ∨ ts = []) : gb.train fs ts = gb := by
  rw [SimpleGradientBoosting.train, if_pos h]

end FfmpegML

open FfmpegML

/-- C2 (amended): train is a silent no-op when either input is empty. -/
theorem c2_train_empty_noop (rf : SimpleRandomForest) (gb : SimpleGradientBoosting)
    (fs : List PredictionFeatures) (ts : List ℚ) (h : fs = [] ∨ ts = []) :
    rf.train fs ts = rf ∧ gb.train fs ts = gb :=
  ⟨train_rf_empty rf fs ts h, train_gb_empty gb fs ts h⟩

theorem c2_train_empty_noop_witness :
    (([] : List PredictionFeatures) = [] ∨ ([(75 : ℚ)]) = []) ∧
      (SimpleRandomForest.new 10).train [] [(75 : ℚ)] = SimpleRandomForest.new 10 ∧
      (SimpleGradientBoosting.new 0.1).train [] [(75 : ℚ)] = SimpleGradientBoosting.new 0.1 :=
  ⟨Or.inl rfl, c2_train_empty_noop _ _ _ _ (Or.inl rfl)⟩

/-- C2 counterexample: mismatched non-empty inputs are trained on, changing state. -/
theorem c2_mismatch_changes_state :
    [featA, featB].length ≠ [(5 : ℚ)].length ∧
      (SimpleRandomForest.new 1).train [featA, featB] [(5 : ℚ)] ≠ SimpleRandomForest.new 1 := by
  constructor
  · decide
  · intro h
    have hne : ¬([featA, featB] = [] ∨ [(5 : ℚ)] = []) := by simp
    have := congrArg (fun rf => rf.trees) h
    rw [SimpleRandomForest.train, if_neg hne] at this
    norm_num [SimpleRandomForest.new, rfSlope, rfIntercept, featA, featB,
      List.range_succ] at this

/-- C5 (amended): with no correction trees, predict returns max(0, base). -/
theorem c5_empty_boosting_predict (gb : SimpleGradientBoosting)
    (f : PredictionFeatures) (h : gb.trees = []) :
    gb.predict f = max 0 gb.base_prediction ∧
      (0 ≤ gb.base_prediction → gb.predict f = gb.base_prediction) := by
  constructor
  · rw [SimpleGradientBoosting.predict, h]
    simp [max_comm]
  · intro hb
    rw [SimpleGradientBoosting.predict, h]
    simp [hb]

theorem c5_empty_boosting_predict_witness :
    ((SimpleGradientBoosting.new 0.1).trees = []) ∧
      (SimpleGradientBoosting.new 0.1).predict exampleFeatures =
        max 0 (SimpleGradientBoosting.new 0.1).base_prediction :=
  ⟨rfl, (c5_empty_boosting_predict _ exampleFeatures rfl).1⟩

/-- C5 counterexample: a negative base is clamped, so predict is not exactly the base. -/
theorem c5_negative_base_cex :
    negBoosting.trees = [] ∧
      negBoosting.predict exampleFeatures ≠ negBoosting.base_prediction := by
  constructor
  · rfl
  · norm_num [negBoosting, SimpleGradientBoosting.predict]

/-- C8: retrain ignores its arguments and returns the synthetic default bundle. -/
theorem c8_retrain_ignores_data :
    (∀ (fs : List PredictionFeatures) (tv tp tc tco : List ℚ),
        retrain fs tv tp tc tco = create_default_model) ∧
      (∀ (fs : List PredictionFeatures) (tv tp tc tco : List ℚ)
          (fs2 : List PredictionFeatures) (tv2 tp2 tc2 tco2 : List ℚ),
        retrain fs tv tp tc tco = retrain fs2 tv2 tp2 tc2 tco2) :=
  ⟨fun _ _ _ _ _ => rfl, fun _ _ _ _ _ _ _ _ _ _ => rfl⟩

/-- C10: an ensemble with zero units predicts 0 for every feature record. -/
theorem c10_empty_forest_predict_zero (f : PredictionFeatures) :
    (SimpleRandomForest.new 0).predict f = 0 ∧
      0 ≤ (SimpleRandomForest.new 0).predict f ∧
      (SimpleRandomForest.new 0).predict f ≤ 100 := by
  refine ⟨?_, ?_, ?_⟩ <;>
    simp [SimpleRandomForest.new, SimpleRandomForest.predict]

namespace FfmpegML

lemma rf_predict_bounds (rf : SimpleRandomForest) (f : PredictionFeatures) :
    0 ≤ rf.predict f ∧ rf.predict f ≤ 100 := by
  rw [SimpleRandomForest.predict]
  exact ⟨le_min (le_max_right _ _) (by norm_num), min_le_right _ _⟩

lemma gb_predict_nonneg (gb : SimpleGradientBoosting) (f : PredictionFeatures) :
    0 ≤ gb.predict f := by
  rw [SimpleGradientBoosting.predict]
  exact le_max_right _ _

lemma confidence_bounds (f : PredictionFeatures) (v : ℚ) :
    0 ≤ calculate_confidence f v ∧ calculate_confidence f v ≤ 1 := by
  rw [calculate_confidence]
  exact ⟨le_min (le_max_right _ _) (by norm_num), min_le_right _ _⟩

end FfmpegML

open FfmpegML

/-- C1 (amended): for every valid feature record and every bundle, predict
returns confidence in [0,1], VMAF in [0,100], cost and CO2 non-negative, and
a non-negative recommended bitrate. -/
theorem c1_predict_ranges (f : PredictionFeatures) (m : ModelBundle)
    (hw : 0 < f.resolution_width) (hh : 0 < f.resolution_height)
    (hfr : 0 < f.frame_rate) (hbr : 0 ≤ f.bitrate_kbps) :
    0 ≤ (predict f m).confidence ∧ (predict f m).confidence ≤ 1 ∧
      0 ≤ (predict f m).predicted_vmaf ∧ (predict f m).predicted_vmaf ≤ 100 ∧
      0 ≤ (predict f m).predicted_cost_usd ∧ 0 ≤ (predict f m).predicted_co2_kg ∧
      0 ≤ (predict f m).recommended_bitrate_kbps := by
  refine ⟨(confidence_bounds f _).1, (confidence_bounds f _).2,
    (rf_predict_bounds _ f).1, (rf_predict_bounds _ f).2,
    gb_predict_nonneg _ f, gb_predict_nonneg _ f, Nat.zero_le _⟩

theorem c1_predict_ranges_witness :
    (0 < exampleFeatures.resolution_width ∧ 0 < exampleFeatures.resolution_height ∧
      0 < exampleFeatures.frame_rate ∧ 0 ≤ exampleFeatures.bitrate_kbps) ∧
      (0 ≤ (predict exampleFeatures ModelBundle.new).confidence ∧
        (predict exampleFeatures ModelBundle.new).confidence ≤ 1 ∧
        0 ≤ (predict exampleFeatures ModelBundle.new).predicted_vmaf ∧
        (predict exampleFeatures ModelBundle.new).predicted_vmaf ≤ 100 ∧
        0 ≤ (predict exampleFeatures ModelBundle.new).predicted_cost_usd ∧
        0 ≤ (predict exampleFeatures ModelBundle.new).predicted_co2_kg ∧
        0 ≤ (predict exampleFeatures ModelBundle.new).recommended_bitrate_kbps) :=
  ⟨⟨by norm_num [exampleFeatures], by norm_num [exampleFeatures],
    by norm_num [exampleFeatures], by norm_num [exampleFeatures]⟩,
   c1_predict_ranges exampleFeatures ModelBundle.new
     (by norm_num [exampleFeatures]) (by norm_num [exampleFeatures])
     (by norm_num [exampleFeatures]) (by norm_num [exampleFeatures])⟩

/-- C1 counterexample: a valid 1x1@1fps record yields recommended bitrate 0,
refuting strict positivity. -/
theorem c1_zero_bitrate_cex :
    (0 < tinyFeatures.resolution_width ∧ 0 < tinyFeatures.resolution_height ∧
      0 < tinyFeatures.frame_rate ∧ 0 ≤ tinyFeatures.bitrate_kbps) ∧
      ¬ 0 < (predict tinyFeatures ModelBundle.new).recommended_bitrate_kbps := by
  refine ⟨⟨by norm_num [tinyFeatures], by norm_num [tinyFeatures],
    by norm_num [tinyFeatures], by norm_num [tinyFeatures]⟩, ?_⟩
  have : (predict tinyFeatures ModelBundle.new).recommended_bitrate_kbps = 0 := by
    norm_num [predict, ModelBundle.new, SimpleRandomForest.new,
      SimpleRandomForest.predict, SimpleGradientBoosting.new,
      SimpleGradientBoosting.predict, DecisionTree.eval, featureVec,
      tinyFeatures, List.zipWith, recommend_bitrate, toU32]
  omega

namespace FfmpegML

lemma map_zip_left_eval (b : PredictionFeatures → ℚ) (fs : List PredictionFeatures)
    (ts : List ℚ) (g : ℚ × ℚ → ℚ) :
    (((fs.map b).zip ts).map g).sum = ((fs.zip ts).map (fun p => g (b p.1, p.2))).sum := by
  rw [List.zip_map_left, List.map_map]
  rfl

lemma map_zip_fst_sum (fs : List PredictionFeatures) (ts : List ℚ)
    (h : fs.length ≤ ts.length) (g : PredictionFeatures → ℚ) :
    ((fs.zip ts).map (fun p => g p.1)).sum = (fs.map g).sum := by
  have h2 : (fs.zip ts).map (fun p => g p.1) = ((fs.zip ts).map Prod.fst).map g := by
    rw [List.map_map]
    rfl
  rw [h2, List.map_fst_zip fs ts h]

lemma var_nonneg (fs : List PredictionFeatures) (ts : List ℚ) (m : ℚ) :
    0 ≤ ((fs.zip ts).map
      (fun p => (p.1.bitrate_kbps - m) * (p.1.bitrate_kbps - m))).sum := by
  apply List.sum_nonneg
  intro x hx
  obtain ⟨p, _, rfl⟩ := List.mem_map.mp hx
  exact mul_self_nonneg _

lemma rfSlope_eq_olsSlope (fs : List PredictionFeatures) (ts : List ℚ)
    (h : ts.length = fs.length) : rfSlope fs ts = olsSlope fs ts := by
  rw [rfSlope, olsSlope]
  simp only [List.length_map, h]
  rw [map_zip_left_eval (fun f => f.bitrate_kbps) fs ts]
  rw [show ((fs.map (fun f => f.bitrate_kbps)).map
        (fun x => (x - (fs.map (fun f => f.bitrate_kbps)).sum / (fs.length : ℚ)) *
          (x - (fs.map (fun f => f.bitrate_kbps)).sum / (fs.length : ℚ)))).sum
      = ((fs.zip ts).map
        (fun p => (p.1.bitrate_kbps - (fs.map (fun f => f.bitrate_kbps)).sum / (fs.length : ℚ)) *
          (p.1.bitrate_kbps - (fs.map (fun f => f.bitrate_kbps)).sum / (fs.length : ℚ)))).sum from ?_]
  · set v := ((fs.zip ts).map
      (fun p => (p.1.bitrate_kbps - (fs.map (fun f => f.bitrate_kbps)).sum / (fs.length : ℚ)) *
        (p.1.bitrate_kbps - (fs.map (fun f => f.bitrate_kbps)).sum / (fs.length : ℚ)))).sum with hv
    by_cases h0 : v = 0
    · simp [h0]
    · have hpos : 0 < v := lt_of_le_of_ne (hv ▸ var_nonneg fs ts _) (Ne.symm h0)
      rw [if_pos hpos, if_neg h0]
  · rw [List.map_map]
    exact (map_zip_fst_sum fs ts (le_of_eq h.symm) _).symm

lemma rfIntercept_eq_olsIntercept (fs : List PredictionFeatures) (ts : List ℚ)
    (h : ts.length = fs.length) : rfIntercept fs ts = olsIntercept fs ts := by
  rw [rfIntercept, olsIntercept, rfSlope_eq_olsSlope fs ts h, h]

end FfmpegML

open FfmpegML

/-- C4: on non-empty equal-length data, ensemble fit computes the OLS slope
and intercept of target against bitrate alone (slope 0 under zero variance)
and sets unit i to the variation-scaled intercept and weight vector
[slope*v_i, 0, 0, 0, -5*v_i, 0]. -/
theorem c4_ensemble_fit_is_ols (rf : SimpleRandomForest)
    (fs : List PredictionFeatures) (ts : List ℚ)
    (h1 : fs ≠ []) (h2 : ts.length = fs.length) :
    (rf.train fs ts).n_trees = rf.n_trees ∧
      (rf.train fs ts).trees = (List.range rf.trees.length).map (fun i =>
        { intercept := olsIntercept fs ts * variationFactor rf.n_trees i,
          weights := [olsSlope fs ts * variationFactor rf.n_trees i, 0, 0, 0,
                      -5 * variationFactor rf.n_trees i, 0] }) := by
  have hts : ts ≠ [] := by
    intro he
    rw [he] at h2
    exact h1 (List.length_eq_zero.mp h2.symm)
  have hne : ¬(fs = [] ∨ ts = []) := by simp [h1, hts]
  rw [SimpleRandomForest.train, if_neg hne]
  refine ⟨rfl, ?_⟩
  simp only [rfSlope_eq_olsSlope fs ts h2, rfIntercept_eq_olsIntercept fs ts h2,
    variationFactor]

theorem c4_ensemble_fit_is_ols_witness :
    (([featA, featB] : List PredictionFeatures) ≠ [] ∧
      ([(10 : ℚ), 20]).length = [featA, featB].length) ∧
      ((SimpleRandomForest.new 1).train [featA, featB] [(10 : ℚ), 20]).trees =
        (List.range (SimpleRandomForest.new 1).trees.length).map (fun i =>
          { intercept := olsIntercept [featA, featB] [(10 : ℚ), 20] *
              variationFactor (SimpleRandomForest.new 1).n_trees i,
            weights := [olsSlope [featA, featB] [(10 : ℚ), 20] *
                variationFactor (SimpleRandomForest.new 1).n_trees i, 0, 0, 0,
                -5 * variationFactor (SimpleRandomForest.new 1).n_trees i, 0] }) :=
  ⟨⟨by simp, rfl⟩,
    (c4_ensemble_fit_is_ols (SimpleRandomForest.new 1) [featA, featB]
      [(10 : ℚ), 20] (by simp) rfl).2⟩

namespace FfmpegML

lemma gb_predict_formula (gb : SimpleGradientBoosting) (f : PredictionFeatures) :
    gb.predict f = max 0 (gb.base_prediction +
      gb.learning_rate * ((gb.trees.map (fun t => t.eval f)).sum)) := by
  rw [SimpleGradientBoosting.predict, max_comm, List.sum_map_mul_left]

end FfmpegML

open FfmpegML

/-- C6: on non-empty equal-length data, boosting fit sets the base to the
target mean and appends exactly 5 correction units with intercept 0 and the
decaying slope weights; predict returns max(0, base + lr * sum of unit
evaluations), so the learning rate enters both the stored weights and the
prediction sum. -/
theorem c6_boosting_fit_structure (gb : SimpleGradientBoosting)
    (fs : List PredictionFeatures) (ts : List ℚ)
    (h1 : fs ≠ []) (h2 : ts.length = fs.length) :
    (gb.train fs ts).base_prediction = ts.sum / (ts.length : ℚ) ∧
      (gb.train fs ts).learning_rate = gb.learning_rate ∧
      (gb.train fs ts).trees = gb.trees ++ (List.range 5).map (fun (i : ℕ) =>
        { intercept := 0,
          weights := [gbSlope fs ts * gb.learning_rate * (1 - (i : ℚ) * 0.1),
                      0, 0, 0, 0, 0] }) ∧
      ∀ f : PredictionFeatures,
        (gb.train fs ts).predict f = max 0 ((gb.train fs ts).base_prediction +
          (gb.train fs ts).learning_rate *
            (((gb.train fs ts).trees.map (fun t => t.eval f)).sum)) := by
  have hts : ts ≠ [] := by
    intro he
    rw [he] at h2
    exact h1 (List.length_eq_zero.mp h2.symm)
  have hne : ¬(fs = [] ∨ ts = []) := by simp [h1, hts]
  refine ⟨?_, ?_, ?_, fun f => gb_predict_formula _ f⟩ <;>
    rw [SimpleGradientBoosting.train, if_neg hne] <;>
    simp [gbBase, mul_assoc]

theorem c6_boosting_fit_structure_witness :
    (([featA, featB] : List PredictionFeatures) ≠ [] ∧
      ([(10 : ℚ), 20]).length = [featA, featB].length) ∧
      ((SimpleGradientBoosting.new 0.1).train [featA, featB] [(10 : ℚ), 20]).base_prediction =
        ([(10 : ℚ), 20]).sum / (([(10 : ℚ), 20]).length : ℚ) ∧
      ((SimpleGradientBoosting.new 0.1).train [featA, featB] [(10 : ℚ), 20]).trees =
        (SimpleGradientBoosting.new 0.1).trees ++ (List.range 5).map (fun (i : ℕ) =>
          { intercept := 0,
            weights := [gbSlope [featA, featB] [(10 : ℚ), 20] *
                (SimpleGradientBoosting.new 0.1).learning_rate * (1 - (i : ℚ) * 0.1),
                0, 0, 0, 0, 0] }) :=
  ⟨⟨by simp, rfl⟩,
    (c6_boosting_fit_structure (SimpleGradientBoosting.new 0.1) [featA, featB]
      [(10 : ℚ), 20] (by simp) rfl).1,
    (c6_boosting_fit_structure (SimpleGradientBoosting.new 0.1) [featA, featB]
      [(10 : ℚ), 20] (by simp) rfl).2.2.1⟩

namespace FfmpegML

lemma toU32_eq_floor_toNat (q : ℚ) (h : q < 2 ^ 32) : toU32 q = (⌊q⌋).toNat := by
  rw [toU32]
  apply min_eq_left
  have hf : ⌊q⌋ < (2 : ℤ) ^ 32 := by
    rw [Int.floor_lt]
    push_cast
    exact h
  omega

end FfmpegML

open FfmpegML

/-- C7 (amended): when the pixel product fits in u32, the frame rate is
non-negative and the 1.3-scaled base bitrate is below 2^32, the recommended
bitrate is the truncation of width*height*frame_rate*0.07, rescaled and
re-truncated by 1.3 below VMAF 70 and by 0.9 above VMAF 90; the cost
argument never affects the result. -/
theorem c7_recommend_bitrate_formula (f : PredictionFeatures) (v c : ℚ)
    (hpx : f.resolution_width * f.resolution_height < 2 ^ 32)
    (hfr : 0 ≤ f.frame_rate)
    (hfit : ((f.resolution_width * f.resolution_height : ℕ) : ℚ) *
      f.frame_rate * 0.07 * 1.3 < 2 ^ 32) :
    (recommend_bitrate f v c =
      (if v < 70 then
        (⌊(((⌊((f.resolution_width * f.resolution_height : ℕ) : ℚ) *
          f.frame_rate * 0.07⌋).toNat : ℚ) * 1.3)⌋).toNat
      else if v > 90 then
        (⌊(((⌊((f.resolution_width * f.resolution_height : ℕ) : ℚ) *
          f.frame_rate * 0.07⌋).toNat : ℚ) * 0.9)⌋).toNat
      else (⌊((f.resolution_width * f.resolution_height : ℕ) : ℚ) *
        f.frame_rate * 0.07⌋).toNat)) ∧
    ∀ c1 c2 : ℚ, recommend_bitrate f v c1 = recommend_bitrate f v c2 := by
  refine ⟨?_, fun c1 c2 => rfl⟩
  have hmod : f.resolution_width * f.resolution_height % 2 ^ 32 =
      f.resolution_width * f.resolution_height := Nat.mod_eq_of_lt hpx
  have hq0 : 0 ≤ ((f.resolution_width * f.resolution_height : ℕ) : ℚ) *
      f.frame_rate * 0.07 :=
    mul_nonneg (mul_nonneg (Nat.cast_nonneg _) hfr) (by norm_num)
  have hq0lt : ((f.resolution_width * f.resolution_height : ℕ) : ℚ) *
      f.frame_rate * 0.07 < 2 ^ 32 :=
    lt_of_le_of_lt (le_mul_of_one_le_right hq0 (by norm_num)) hfit
  have hcast : (((⌊((f.resolution_width * f.resolution_height : ℕ) : ℚ) *
      f.frame_rate * 0.07⌋).toNat : ℚ)) ≤
      ((f.resolution_width * f.resolution_height : ℕ) : ℚ) * f.frame_rate * 0.07 := by
    have h1 := Int.floor_le (((f.resolution_width * f.resolution_height : ℕ) : ℚ) *
      f.frame_rate * 0.07)
    have h2 : ((⌊((f.resolution_width * f.resolution_height : ℕ) : ℚ) *
        f.frame_rate * 0.07⌋).toNat : ℤ) =
        ⌊((f.resolution_width * f.resolution_height : ℕ) : ℚ) * f.frame_rate * 0.07⌋ :=
      Int.toNat_of_nonneg (Int.floor_nonneg.mpr hq0)
    calc (((⌊((f.resolution_width * f.resolution_height : ℕ) : ℚ) *
        f.frame_rate * 0.07⌋).toNat : ℚ))
        = (((⌊((f.resolution_width * f.resolution_height : ℕ) : ℚ) *
            f.frame_rate * 0.07⌋).toNat : ℤ) : ℚ) := by push_cast; ring
      _ = ((⌊((f.resolution_width * f.resolution_height : ℕ) : ℚ) *
            f.frame_rate * 0.07⌋ : ℤ) : ℚ) := by rw [h2]
      _ ≤ _ := h1
  have h13 : (((⌊((f.resolution_width * f.resolution_height : ℕ) : ℚ) *
      f.frame_rate * 0.07⌋).toNat : ℚ)) * 1.3 < 2 ^ 32 :=
    lt_of_le_of_lt (mul_le_mul_of_nonneg_right hcast (by norm_num)) hfit
  have h09 : (((⌊((f.resolution_width * f.resolution_height : ℕ) : ℚ) *
      f.frame_rate * 0.07⌋).toNat : ℚ)) * 0.9 < 2 ^ 32 :=
    lt_of_le_of_lt
      (le_trans (mul_le_mul_of_nonneg_left (by norm_num : (0.9 : ℚ) ≤ 1.3)
        (Nat.cast_nonneg _)) (le_of_eq rfl))
      h13
  rw [recommend_bitrate]
  simp only [hmod, toU32_eq_floor_toNat _ hq0lt]
  split_ifs
  · exact toU32_eq_floor_toNat _ h13
  · exact toU32_eq_floor_toNat _ h09
  · rfl

theorem c7_recommend_bitrate_formula_witness :
    (exampleFeatures.resolution_width * exampleFeatures.resolution_height < 2 ^ 32 ∧
      0 ≤ exampleFeatures.frame_rate ∧
      ((exampleFeatures.resolution_width * exampleFeatures.resolution_height : ℕ) : ℚ) *
        exampleFeatures.frame_rate * 0.07 * 1.3 < 2 ^ 32) ∧
      ∀ c1 c2 : ℚ, recommend_bitrate exampleFeatures 75 c1 =
        recommend_bitrate exampleFeatures 75 c2 :=
  ⟨⟨by norm_num [exampleFeatures], by norm_num [exampleFeatures],
    by norm_num [exampleFeatures]⟩,
    (c7_recommend_bitrate_formula exampleFeatures 75 0
      (by norm_num [exampleFeatures]) (by norm_num [exampleFeatures])
      (by norm_num [exampleFeatures])).2⟩

/-- C7 counterexample: at 65536x65536 the u32 pixel product wraps to 0, so
the recommendation is 0 instead of the claimed truncation of
width*height*frame_rate*0.07. -/
theorem c7_overflow_cex :
    recommend_bitrate overflowFeatures 75 0 = 0 ∧
      (⌊((overflowFeatures.resolution_width * overflowFeatures.resolution_height : ℕ) : ℚ) *
        overflowFeatures.frame_rate * 0.07⌋).toNat = 300647710 ∧
      (0 : ℕ) ≠ 300647710 := by
  refine ⟨?_, ?_, by norm_num⟩
  · norm_num [recommend_bitrate, overflowFeatures, toU32]
  · norm_num [overflowFeatures]
    rfl

namespace FfmpegML

lemma decodeList_map_encode {α : Type} (dec : Json → Option α) (enc : α → Json)
    (h : ∀ a, dec (enc a) = some a) (xs : List α) :
    decodeList dec (xs.map enc) = some xs := by
  induction xs with
  | nil => rfl
  | cons x rest ih => simp [decodeList, h, ih]

lemma decodeTree_encodeTree (t : DecisionTree) :
    decodeTree (encodeTree t) = some t := by
  simp [decodeTree, encodeTree, getField, decodeNum, decodeNumList,
    decodeList_map_encode decodeNum Json.num (fun q => rfl)]

lemma decodeForest_encodeForest (rf : SimpleRandomForest) :
    decodeForest (encodeForest rf) = some rf := by
  simp [decodeForest, encodeForest, getField, decodeTreeList, decodeNat,
    decodeList_map_encode decodeTree encodeTree decodeTree_encodeTree]

lemma decodeBoosting_encodeBoosting (gb : SimpleGradientBoosting) :
    decodeBoosting (encodeBoosting gb) = some gb := by
  simp [decodeBoosting, encodeBoosting, getField, decodeNum, decodeTreeList,
    decodeList_map_encode decodeTree encodeTree decodeTree_encodeTree]

lemma decodeBundle_encodeBundle (m : ModelBundle) :
    decodeBundle (encodeBundle m) = some m := by
  simp [decodeBundle, encodeBundle, getField, decodeStr,
    decodeForest_encodeForest, decodeBoosting_encodeBoosting]

end FfmpegML

open FfmpegML

/-- C3: saving a bundle and loading it back from the same location yields a
field-for-field equal bundle. -/
theorem c3_save_load_roundtrip (m : ModelBundle) (path : String) (fs : FileSystem) :
    load_model path (save_model m path fs) = .ok m := by
  rw [load_model, save_model]
  simp [decodeBundle_encodeBundle]

/-- C9: loading from a missing location returns the synthetic default bundle;
unreadable data gives the read error; readable data that does not decode to a
bundle gives the parse error; the two errors are distinct. -/
theorem c9_load_error_taxonomy (path : String) (fs : FileSystem) :
    (fs path = none → load_model path fs = .ok create_default_model) ∧
      (fs path = some .unreadable →
        load_model path fs = .error "Failed to read model file: read failed") ∧
      (∀ j : Json, fs path = some (.readable j) → decodeBundle j = none →
        load_model path fs = .error "Failed to parse model: malformed document") ∧
      ("Failed to read model file: read failed" ≠
        "Failed to parse model: malformed document") := by
  refine ⟨?_, ?_, ?_, by decide⟩
  · intro h
    rw [load_model, h]
  · intro h
    rw [load_model, h]
  · intro j hj hd
    rw [load_model, hj]
    simp [hd]

theorem c9_load_error_taxonomy_witness :
    load_model "model.json" (fun _ => none) = .ok create_default_model ∧
      load_model "model.json" (fun _ => some .unreadable) =
        .error "Failed to read model file: read failed" ∧
      load_model "model.json" (fun _ => some (.readable (Json.num 0))) =
        .error "Failed to parse model: malformed document" :=
  ⟨(c9_load_error_taxonomy "model.json" (fun _ => none)).1 rfl,
   (c9_load_error_taxonomy "model.json" (fun _ => some .unreadable)).2.1 rfl,
   (c9_load_error_taxonomy "model.json" (fun _ => some (.readable (Json.num 0)))).2.2.1
     (Json.num 0) rfl rfl⟩
